import Mathlib

/-!
Verification development for the netherbrain agent-runtime core
(session lifecycle and execution coordination).

This file gives a shallow embedding, in Lean, of the components the
checked claims are about:

- the in-process SessionRegistry (src/netherbrain/agent_runtime/registry.py),
- the SessionManager over the relational index, the blob StateStore and the
  registry (src/netherbrain/agent_runtime/managers/sessions.py),
- the configuration resolver (src/netherbrain/agent_runtime/execution/resolver.py),
- the deferred-tool handling and interrupt finalization of the execution
  coordinator (src/netherbrain/agent_runtime/execution/coordinator.py).

Python dictionaries are modelled as association lists with unique keys:
dictGet is d[k] lookup, dictSet is d[k] = v (replace in place or append),
dictErase is d.pop(k) (on unique-key dictionaries removing the single
binding).  Database tables are association lists keyed by the row id.
Asynchronous effectful operations (blob writes, relational updates) are
modelled by explicit state passing; operations that can fail at runtime
take explicit success flags so that a raise at any effect point is a
representable execution.  Reads of in-memory state are pure.
-/

/-- Python dict lookup d.get(k): first binding for the key, if any. -/
def dictGet {β : Type} (d : List (String × β)) (k : String) : Option β :=
  match d with
  | [] => none
  | (k1, v) :: rest => if k1 = k then some v else dictGet rest k

/-- Python dict assignment d[k] = v: replace the binding in place, or append. -/
def dictSet {β : Type} (d : List (String × β)) (k : String) (v : β) : List (String × β) :=
  match d with
  | [] => [(k, v)]
  | (k1, v1) :: rest => if k1 = k then (k, v) :: rest else (k1, v1) :: dictSet rest k v

/-- Python dict d.pop(k): drop every binding of the key (on the unique-key
dictionaries reachable here, exactly the one binding). -/
def dictErase {β : Type} (d : List (String × β)) (k : String) : List (String × β) :=
  match d with
  | [] => []
  | (k1, v) :: rest => if k1 = k then dictErase rest k else (k1, v) :: dictErase rest k

/-- Keys of an association-list dictionary. -/
def dictKeys {β : Type} (d : List (String × β)) : List String :=
  d.map Prod.fst

-- ---------------------------------------------------------------------------
-- Shared enumerations (src/netherbrain/agent_runtime/models/enums.py)
-- ---------------------------------------------------------------------------

/-- Durable session status persisted in the relational index. -/
inductive SessionStatus where
  | created
  | committed
  | awaiting_tool_results
  | failed
  | archived
deriving DecidableEq, Repr

inductive SessionType where
  | agent
  | async_subagent
deriving DecidableEq, Repr

inductive Transport where
  | sse
  | stream
deriving DecidableEq, Repr

inductive ConversationStatus where
  | active
  | archived
deriving DecidableEq, Repr

inductive ShellMode where
  | local
  | docker
deriving DecidableEq, Repr

-- ---------------------------------------------------------------------------
-- RuntimeSession and SessionRegistry (src/netherbrain/agent_runtime/registry.py,
-- src/netherbrain/agent_runtime/context.py)
-- ---------------------------------------------------------------------------

/-- In-flight handle for one executing session (context.py RuntimeSession).
The live SDK object references (sdk_context, event_processor) are opaque at
this boundary; the streamer reference is kept as a flag relevant to
interrupt_all. -/
structure RuntimeSession where
  session_id : String
  conversation_id : String
  parent_session_id : Option String
  preset_id : Option String
  session_type : SessionType
  transport : Transport
  streamer : Option Unit
  stream_key : Option String
deriving DecidableEq, Repr

/-- Raised when attempting to register a session during shutdown. -/
inductive ShuttingDownError where
  | mk
deriving DecidableEq, Repr

/-- Process-local registry of currently executing sessions.  drain_event
models the asyncio.Event used for the graceful-shutdown drain wait. -/
structure SessionRegistry where
  sessions : List (String × RuntimeSession)
  drain_event : Bool
  shutting_down : Bool
deriving DecidableEq, Repr

/-- Freshly constructed registry: empty, drained, not shutting down. -/
def SessionRegistry.init : SessionRegistry :=
  { sessions := [], drain_event := true, shutting_down := false }

/-- register: refuse while shutting down, else insert and clear the drain event. -/
def SessionRegistry.register (r : SessionRegistry) (s : RuntimeSession) :
    Except ShuttingDownError SessionRegistry :=
  if r.shutting_down then
    Except.error ShuttingDownError.mk
  else
    Except.ok
      { sessions := dictSet r.sessions s.session_id s
        drain_event := false
        shutting_down := r.shutting_down }

/-- unregister: pop the session; set the drain event when the table is empty. -/
def SessionRegistry.unregister (r : SessionRegistry) (session_id : String) :
    Option RuntimeSession × SessionRegistry :=
  let popped := dictGet r.sessions session_id
  let rest := dictErase r.sessions session_id
  (popped,
    { sessions := rest
      drain_event := if rest.isEmpty then true else r.drain_event
      shutting_down := r.shutting_down })

/-- begin_shutdown: refuse new registrations; set the drain event if already empty. -/
def SessionRegistry.begin_shutdown (r : SessionRegistry) : SessionRegistry :=
  { r with
    shutting_down := true
    drain_event := if r.sessions.isEmpty then true else r.drain_event }

/-- Whether a pending or newly issued wait_until_drained call (without
timeout) completes with True at this state: immediately when the table is
empty, otherwise exactly when the drain event has been set. -/
def SessionRegistry.wait_until_drained_completes (r : SessionRegistry) : Bool :=
  r.sessions.isEmpty || r.drain_event

/-- One registry call, for quantifying over call sequences. -/
inductive RegOp where
  | register (s : RuntimeSession)
  | unregister (session_id : String)
  | begin_shutdown
deriving Repr

/-- Apply one call; a refused register (ShuttingDownError) leaves the state unchanged. -/
def SessionRegistry.step (r : SessionRegistry) (op : RegOp) : SessionRegistry :=
  match op with
  | RegOp.register s =>
    match r.register s with
    | Except.ok r1 => r1
    | Except.error _ => r
  | RegOp.unregister sid => (r.unregister sid).2
  | RegOp.begin_shutdown => r.begin_shutdown

/-- Apply a sequence of registry calls. -/
def SessionRegistry.run (r : SessionRegistry) (ops : List RegOp) : SessionRegistry :=
  ops.foldl SessionRegistry.step r

/-- The register calls for a list of sessions. -/
def regOps (ss : List RuntimeSession) : List RegOp :=
  ss.map RegOp.register

/-- The unregister calls for the ids of a list of sessions. -/
def unregOps (ss : List RuntimeSession) : List RegOp :=
  ss.map (fun s => RegOp.unregister s.session_id)

-- ---------------------------------------------------------------------------
-- Session and conversation index rows, state blobs
-- (src/netherbrain/agent_runtime/db/tables.py, models/session.py)
-- ---------------------------------------------------------------------------

/-- Token/request usage totals of a run (models/session.py UsageSummary). -/
structure UsageSummary where
  total_tokens : Nat
  prompt_tokens : Nat
  completion_tokens : Nat
  model_requests : Nat
deriving DecidableEq, Repr

/-- Usage and duration summary recorded on commit (models/session.py RunSummary). -/
structure RunSummary where
  duration_ms : Nat
  usage : UsageSummary
deriving DecidableEq, Repr

/-- A JSON-object payload, modelled as a string-keyed dictionary of scalar
values; the session manager treats these payloads opaquely. -/
abbrev JsonDict := List (String × String)

/-- Display messages blob: a list of JSON-object messages. -/
abbrev DisplayMessages := List JsonDict

/-- Heavy durable blob written once at commit (models/session.py
SessionState): serialized context, message history and environment
snapshot, all opaque JSON payloads to the manager. -/
structure SessionState where
  context_state : JsonDict
  message_history : List JsonDict
  environment_state : JsonDict
deriving DecidableEq, Repr

/-- Relational session index row (db/tables.py Session), with the columns
the session manager reads or writes. -/
structure SessionRow where
  session_id : String
  parent_session_id : Option String
  project_ids : List String
  status : SessionStatus
  session_type : SessionType
  transport : Transport
  conversation_id : String
  spawned_by : Option String
  preset_id : Option String
  run_summary : Option RunSummary
deriving DecidableEq, Repr

/-- Relational conversation index row (db/tables.py Conversation). -/
structure ConversationRow where
  conversation_id : String
  status : ConversationStatus
deriving DecidableEq, Repr

/-- Relational database contents consulted by the session manager, keyed by id. -/
structure Db where
  sessions : List (String × SessionRow)
  conversations : List (String × ConversationRow)
deriving DecidableEq, Repr

/-- Durable blob store contents (store/base.py StateStore): one state blob and
one display-messages blob per session id. -/
structure StoreState where
  states : List (String × SessionState)
  display_messages : List (String × DisplayMessages)
deriving DecidableEq, Repr

/-- The three backends the SessionManager coordinates: the relational index,
the blob store, and the in-memory registry. -/
structure ManagerState where
  db : Db
  store : StoreState
  registry : SessionRegistry
deriving DecidableEq, Repr

-- ---------------------------------------------------------------------------
-- SessionManager (src/netherbrain/agent_runtime/managers/sessions.py)
-- ---------------------------------------------------------------------------

/-- ValueError raised by create_session when the parent row is missing. -/
inductive CreateRaise where
  | parentNotFound (parent_session_id : String)
deriving DecidableEq, Repr

/-- create_session: resolve the conversation id by the lineage rules, upsert
the conversation row, insert the session row with status created.  The
generated uuid4 session id is passed in as session_id. -/
def create_session (db : Db) (session_id : String)
    (parent_session_id : Option String) (conversation_id : Option String)
    (preset_id : Option String) (project_ids : Option (List String))
    (session_type : SessionType) (transport : Transport)
    (spawned_by : Option String) :
    Except CreateRaise (Db × SessionRow) :=
  let resolved_conversation : Except CreateRaise String :=
    match parent_session_id, conversation_id with
    | some pid, none =>
      match dictGet db.sessions pid with
      | none => Except.error (CreateRaise.parentNotFound pid)
      | some parent => Except.ok parent.conversation_id
    | none, none => Except.ok session_id
    | _, some cid => Except.ok cid
  match resolved_conversation with
  | Except.error e => Except.error e
  | Except.ok cid =>
    let conversations :=
      match dictGet db.conversations cid with
      | some _ => db.conversations
      | none =>
        db.conversations ++
          [(cid, { conversation_id := cid, status := ConversationStatus.active })]
    let row : SessionRow :=
      { session_id := session_id
        parent_session_id := parent_session_id
        project_ids :=
          match project_ids with
          | some ps => ps
          | none => []
        status := SessionStatus.created
        session_type := session_type
        transport := transport
        conversation_id := cid
        spawned_by := spawned_by
        preset_id := preset_id
        run_summary := none }
    Except.ok
      ({ sessions := db.sessions ++ [(session_id, row)], conversations := conversations },
        row)

/-- Exceptions commit_session can raise: the caller ValueError on a
non-success status, or an I/O failure at one of the effect points. -/
inductive CommitRaise where
  | invalidStatus (status : SessionStatus)
  | writeStateFailed
  | writeDisplayFailed
  | dbUpdateFailed
deriving DecidableEq, Repr

/-- Failure-injection environment for commit_session: which of its effectful
operations (blob writes, relational update transaction) succeed in this
execution.  A raise at any point of the method is representable. -/
structure CommitEffects where
  write_state_ok : Bool
  write_display_ok : Bool
  db_update_ok : Bool
deriving DecidableEq, Repr

/-- The row content after the relational UPDATE of commit_session: status is
set, run_summary only when one was supplied. -/
def commit_update_row (row : SessionRow) (run_summary : Option RunSummary)
    (status : SessionStatus) : SessionRow :=
  { row with
    status := status
    run_summary :=
      match run_summary with
      | some rs => some rs
      | none => row.run_summary }

/-- UPDATE sessions SET status [, run_summary] WHERE session_id = id. -/
def commit_db_update (db : Db) (session_id : String)
    (run_summary : Option RunSummary) (status : SessionStatus) : Db :=
  { db with
    sessions :=
      db.sessions.map fun p =>
        (p.1, if p.1 = session_id then commit_update_row p.2 run_summary status else p.2) }

/-- commit_session: validate the status, write the state blob (and the
display-messages blob when supplied) to the store, update the relational
row, then unregister from the registry and re-read the row.  Returns the
resulting backend state together with the outcome; on a raise the state
reflects exactly the effects performed before the raise. -/
def commit_session (st : ManagerState) (eff : CommitEffects) (session_id : String)
    (state : SessionState) (display_messages : Option DisplayMessages)
    (run_summary : Option RunSummary) (status : SessionStatus) :
    ManagerState × Except CommitRaise (Option SessionRow) :=
  if ¬ (status = SessionStatus.committed ∨ status = SessionStatus.awaiting_tool_results) then
    (st, Except.error (CommitRaise.invalidStatus status))
  else if ¬ eff.write_state_ok then
    (st, Except.error CommitRaise.writeStateFailed)
  else
    let store1 : StoreState :=
      { st.store with states := dictSet st.store.states session_id state }
    let afterDisplay : ManagerState × Bool :=
      match display_messages with
      | none => ({ st with store := store1 }, true)
      | some msgs =>
        if eff.write_display_ok then
          ({ st with
              store :=
                { store1 with
                  display_messages := dictSet store1.display_messages session_id msgs } },
            true)
        else
          ({ st with store := store1 }, false)
    if ¬ afterDisplay.2 then
      (afterDisplay.1, Except.error CommitRaise.writeDisplayFailed)
    else if ¬ eff.db_update_ok then
      (afterDisplay.1, Except.error CommitRaise.dbUpdateFailed)
    else
      let db1 := commit_db_update afterDisplay.1.db session_id run_summary status
      let reg1 := (afterDisplay.1.registry.unregister session_id).2
      ({ afterDisplay.1 with db := db1, registry := reg1 },
        Except.ok (dictGet db1.sessions session_id))

/-- fail_session: flip the row status to failed without touching the store,
then unregister from the registry. -/
def fail_session (st : ManagerState) (session_id : String) : ManagerState :=
  let db1 : Db :=
    { st.db with
      sessions :=
        st.db.sessions.map fun p =>
          (p.1,
            if p.1 = session_id then
              { p.2 with status := SessionStatus.failed }
            else p.2) }
  { st with db := db1, registry := (st.registry.unregister session_id).2 }

/-- LookupError raised by get_session when the index row is missing. -/
inductive GetSessionRaise where
  | sessionNotFound (session_id : String)
deriving DecidableEq, Repr

/-- Hydrated view returned by get_session: the index row always; the state
and display-messages entries only when requested (outer Option), holding
none when the store raised its not-found error (inner Option). -/
structure GetSessionResult where
  index : SessionRow
  state : Option (Option SessionState)
  display_messages : Option (Option DisplayMessages)
deriving DecidableEq, Repr

/-- get_session: read the index row (LookupError when absent); when asked,
hydrate with store blobs, swallowing the store FileNotFoundError into none. -/
def get_session (db : Db) (store : StoreState) (session_id : String)
    (include_state : Bool) (include_display_messages : Bool) :
    Except GetSessionRaise GetSessionResult :=
  match dictGet db.sessions session_id with
  | none => Except.error (GetSessionRaise.sessionNotFound session_id)
  | some row =>
    Except.ok
      { index := row
        state := if include_state then some (dictGet store.states session_id) else none
        display_messages :=
          if include_display_messages then
            some (dictGet store.display_messages session_id)
          else none }

/-- The per-row effect of the batch UPDATE in recover_orphaned_sessions:
a created row becomes failed, any other row is untouched. -/
def recover_row (r : SessionRow) : SessionRow :=
  if r.status = SessionStatus.created then { r with status := SessionStatus.failed } else r

/-- recover_orphaned_sessions: UPDATE sessions SET status = failed WHERE
status = created, returning the updated database and the statement
rowcount (the number of rows the WHERE clause matched). -/
def recover_orphaned_sessions (db : Db) : Db × Nat :=
  let db1 : Db := { db with sessions := db.sessions.map fun p => (p.1, recover_row p.2) }
  (db1, (db.sessions.filter fun p => p.2.status = SessionStatus.created).length)

-- ---------------------------------------------------------------------------
-- Preset / workspace models (src/netherbrain/agent_runtime/models/preset.py)
-- and the config resolver (src/netherbrain/agent_runtime/execution/resolver.py)
-- ---------------------------------------------------------------------------

/-- LLM model selection and settings (the tuning knobs are carried opaquely;
temperature is a decimal literal modelled as a rational). -/
structure ModelPreset where
  name : String
  context_window : Option Nat
  temperature : Option Rat
  max_tokens : Option Nat
deriving DecidableEq, Repr

/-- Enabled tool group with optional exclusions. -/
structure ToolsetSpec where
  toolset_name : String
  enabled : Bool
  exclude_tools : List String
deriving DecidableEq, Repr

/-- Shell execution mode and project environment.  workspace_id and
project_ids are mutually exclusive at each level. -/
structure EnvironmentSpec where
  shell_mode : ShellMode
  workspace_id : Option String
  project_ids : Option (List String)
  container_id : Option String
  container_workdir : Option String
deriving DecidableEq, Repr

/-- Reference to another preset used as a subagent. -/
structure SubagentRef where
  preset_id : String
  name : String
  description : String
  instruction : Option String
deriving DecidableEq, Repr

/-- Subagent configuration block within a preset. -/
structure SubagentSpec where
  include_builtin : Bool
  async_enabled : Bool
  refs : List SubagentRef
deriving DecidableEq, Repr

/-- Preset row as stored relationally (db/tables.py Preset); its JSON columns
are carried as the corresponding models. -/
structure PresetRow where
  preset_id : String
  name : String
  description : Option String
  model : ModelPreset
  system_prompt : String
  toolsets : List ToolsetSpec
  environment : EnvironmentSpec
  subagents : SubagentSpec
  is_default : Bool
deriving DecidableEq, Repr

/-- Workspace row: named ordered project list (db/tables.py Workspace). -/
structure WorkspaceRow where
  workspace_id : String
  projects : List String
deriving DecidableEq, Repr

/-- Relational contents consulted by the resolver. -/
structure ResolverDb where
  presets : List (String × PresetRow)
  workspaces : List (String × WorkspaceRow)
deriving DecidableEq, Repr

/-- Per-request overrides; only explicitly set fields are applied. -/
structure ConfigOverride where
  model : Option ModelPreset
  system_prompt : Option String
  toolsets : Option (List ToolsetSpec)
  environment : Option EnvironmentSpec
  subagents : Option SubagentSpec
deriving DecidableEq, Repr

/-- Fully resolved configuration for the execution pipeline. -/
structure ResolvedConfig where
  preset_id : String
  model : ModelPreset
  system_prompt : String
  toolsets : List ToolsetSpec
  subagents : SubagentSpec
  shell_mode : ShellMode
  project_ids : List String
  container_id : Option String
  container_workdir : Option String
deriving DecidableEq, Repr

/-- The typed resolver errors: preset not found (NoPresetError), workspace
not found (WorkspaceNotFoundError), and the mutual-exclusion conflict
(ProjectConflictError) carrying the offending level name. -/
inductive ResolveError where
  | noPreset (preset_id : Option String)
  | workspaceNotFound (workspace_id : String)
  | projectConflict (source : String)
deriving DecidableEq, Repr

/-- Python x if x is not None else default, for an optional override value. -/
def firstOpt {α : Type} (override : Option α) (default : α) : α :=
  match override with
  | some v => v
  | none => default

/-- Load a preset by id, or fall back to the first preset flagged default. -/
def load_preset (db : ResolverDb) (preset_id : Option String) :
    Except ResolveError PresetRow :=
  match preset_id with
  | some pid =>
    match dictGet db.presets pid with
    | none => Except.error (ResolveError.noPreset (some pid))
    | some row => Except.ok row
  | none =>
    match db.presets.find? (fun p => p.2.is_default) with
    | none => Except.error (ResolveError.noPreset none)
    | some p => Except.ok p.2

/-- Resolve a workspace_id to its project list. -/
def resolve_workspace (db : ResolverDb) (workspace_id : String) :
    Except ResolveError (List String) :=
  match dictGet db.workspaces workspace_id with
  | none => Except.error (ResolveError.workspaceNotFound workspace_id)
  | some row => Except.ok row.projects

/-- Resolve project_ids from an EnvironmentSpec, or none if unset; conflict
when both workspace_id and project_ids are set at this level. -/
def resolve_env_projects (db : ResolverDb) (env : EnvironmentSpec) (source : String) :
    Except ResolveError (Option (List String)) :=
  if env.workspace_id.isSome ∧ env.project_ids.isSome then
    Except.error (ResolveError.projectConflict source)
  else
    match env.workspace_id with
    | some w =>
      match resolve_workspace db w with
      | Except.error e => Except.error e
      | Except.ok ps => Except.ok (some ps)
    | none =>
      match env.project_ids with
      | some ps => Except.ok (some ps)
      | none => Except.ok none

/-- Walk the priority chain to produce the final project_ids list:
request level, override environment, preset environment, parent session
fallback, then the empty list. -/
def resolve_projects (db : ResolverDb)
    (request_workspace_id : Option String)
    (request_project_ids : Option (List String))
    (override_env : Option EnvironmentSpec)
    (preset_env : EnvironmentSpec)
    (parent_project_ids : Option (List String)) :
    Except ResolveError (List String) :=
  match request_workspace_id with
  | some w => resolve_workspace db w
  | none =>
  match request_project_ids with
  | some ps => Except.ok ps
  | none =>
  let level2 : Except ResolveError (Option (List String)) :=
    match override_env with
    | some env => resolve_env_projects db env "override"
    | none => Except.ok none
  match level2 with
  | Except.error e => Except.error e
  | Except.ok (some ps) => Except.ok ps
  | Except.ok none =>
  match resolve_env_projects db preset_env "preset" with
  | Except.error e => Except.error e
  | Except.ok (some ps) => Except.ok ps
  | Except.ok none =>
  match parent_project_ids with
  | some ps => Except.ok ps
  | none => Except.ok []

/-- resolve_config: request-level mutual exclusion, preset load, field-level
override merge, then project resolution. -/
def resolve_config (db : ResolverDb) (preset_id : Option String)
    (override : Option ConfigOverride)
    (workspace_id : Option String) (project_ids : Option (List String))
    (parent_project_ids : Option (List String)) :
    Except ResolveError ResolvedConfig :=
  if workspace_id.isSome ∧ project_ids.isSome then
    Except.error (ResolveError.projectConflict "request")
  else
  match load_preset db preset_id with
  | Except.error e => Except.error e
  | Except.ok preset =>
    let model := firstOpt (override.bind fun o => o.model) preset.model
    let system_prompt := firstOpt (override.bind fun o => o.system_prompt) preset.system_prompt
    let toolsets := firstOpt (override.bind fun o => o.toolsets) preset.toolsets
    let subagents := firstOpt (override.bind fun o => o.subagents) preset.subagents
    let env_override := override.bind fun o => o.environment
    let env_preset := preset.environment
    let shell_mode := firstOpt (env_override.map fun e => e.shell_mode) env_preset.shell_mode
    let container_id := firstOpt (env_override.bind fun e => e.container_id.map some) env_preset.container_id
    let container_workdir :=
      firstOpt (env_override.bind fun e => e.container_workdir.map some) env_preset.container_workdir
    match resolve_projects db workspace_id project_ids env_override env_preset parent_project_ids with
    | Except.error e => Except.error e
    | Except.ok projects =>
      Except.ok
        { preset_id := preset.preset_id
          model := model
          system_prompt := system_prompt
          toolsets := toolsets
          subagents := subagents
          shell_mode := shell_mode
          project_ids := projects
          container_id := container_id
          container_workdir := container_workdir }

/-- Whether an optional environment level supplies a project specification
(a workspace reference or an explicit project list). -/
def envSpecifies (env : Option EnvironmentSpec) : Bool :=
  match env with
  | none => false
  | some e => e.workspace_id.isSome || e.project_ids.isSome

/-- The value one chain level supplies, per the specification: an explicit
project list, or the referenced workspace resolved by lookup. -/
def specLevelValue (db : ResolverDb) (ws : Option String)
    (ps : Option (List String)) : Option (List String) :=
  match ws with
  | some w => (dictGet db.workspaces w).map (fun row => row.projects)
  | none => ps

/-- The project list the specification priority chain produces: the value of
the first source that supplies one, out of request, override environment,
preset environment, parent session, then the empty list.  This definition
follows the wording of the spec, for comparison with resolve_projects. -/
def specChainProjects (db : ResolverDb)
    (request_workspace_id : Option String)
    (request_project_ids : Option (List String))
    (override_env : Option EnvironmentSpec)
    (preset_env : EnvironmentSpec)
    (parent_project_ids : Option (List String)) : List String :=
  match specLevelValue db request_workspace_id request_project_ids with
  | some v => v
  | none =>
  match override_env.bind (fun e => specLevelValue db e.workspace_id e.project_ids) with
  | some v => v
  | none =>
  match specLevelValue db preset_env.workspace_id preset_env.project_ids with
  | some v => v
  | none =>
  match parent_project_ids with
  | some v => v
  | none => []

-- ---------------------------------------------------------------------------
-- Execution coordinator: deferred-tool results and interrupt finalization
-- (src/netherbrain/agent_runtime/execution/coordinator.py,
-- src/netherbrain/agent_runtime/models/input.py)
-- ---------------------------------------------------------------------------

/-- HITL approval decision supplied by the caller (models/input.py). -/
structure UserInteraction where
  tool_call_id : String
  approved : Bool
deriving DecidableEq, Repr

/-- External tool result supplied by the caller (models/input.py). -/
structure ToolResult where
  tool_call_id : String
  output : Option String
  error : Option String
deriving DecidableEq, Repr

/-- SDK approval value: ToolApproved, or ToolDenied with an optional message. -/
inductive ApprovalValue where
  | toolApproved
  | toolDenied (message : Option String)
deriving DecidableEq, Repr

/-- SDK ToolReturn carrying the value handed back to the deferred call. -/
structure ToolReturnValue where
  return_value : String
deriving DecidableEq, Repr

/-- Metadata dictionary recorded for one pending deferred tool call. -/
abbrev ToolMetadata := JsonDict

/-- The slice of the SDK ResumableState the coordinator consults when
continuing a session: the metadata of the pending deferred tool calls,
keyed by tool_call_id. -/
structure ResumableState where
  deferred_tool_metadata : List (String × ToolMetadata)
deriving DecidableEq, Repr

/-- The DeferredToolResults object handed to the SDK run. -/
structure DeferredToolResults where
  approvals : List (String × ApprovalValue)
  calls : List (String × ToolReturnValue)
  metadata : List (String × ToolMetadata)
deriving DecidableEq, Repr

/-- Python x or y for an optional string x: y when x is None or empty. -/
def pyOrStr (a : Option String) (b : String) : String :=
  match a with
  | some s => if s = "" then b else s
  | none => b

/-- Python truthiness of an optional sequence: a non-empty list. -/
def pySeqTruthy {α : Type} (l : Option (List α)) : Bool :=
  match l with
  | some (_ :: _) => true
  | _ => false

/-- collect_approvals: map each interaction to ToolApproved or ToolDenied,
keyed by tool_call_id. -/
def collect_approvals (interactions : Option (List UserInteraction)) :
    List (String × ApprovalValue) :=
  match interactions with
  | none => []
  | some l =>
    l.foldl
      (fun acc i =>
        dictSet acc i.tool_call_id
          (if i.approved then ApprovalValue.toolApproved else ApprovalValue.toolDenied none))
      []

/-- collect_calls: map each result to a ToolReturn whose value is
result.error or result.output or the empty string. -/
def collect_calls (results : Option (List ToolResult)) :
    List (String × ToolReturnValue) :=
  match results with
  | none => []
  | some l =>
    l.foldl
      (fun acc r =>
        dictSet acc r.tool_call_id { return_value := pyOrStr r.error (pyOrStr r.output "") })
      []

/-- meta.get with the approval default: the recorded type of a pending item. -/
def metaGetType (meta : ToolMetadata) : String :=
  match dictGet meta "type" with
  | some t => t
  | none => "approval"

/-- One iteration of fill_uncovered over a pending metadata item: auto-deny
an uncovered approval-type item, auto-fail an uncovered call-type item. -/
def fillStep
    (acc : List (String × ApprovalValue) × List (String × ToolReturnValue))
    (item : String × ToolMetadata) :
    List (String × ApprovalValue) × List (String × ToolReturnValue) :=
  let tool_type := metaGetType item.2
  if tool_type = "approval" ∧ dictGet acc.1 item.1 = none then
    (dictSet acc.1 item.1
        (ApprovalValue.toolDenied (some "Auto-denied: no response provided")),
      acc.2)
  else if tool_type = "call" ∧ dictGet acc.2 item.1 = none then
    (acc.1, dictSet acc.2 item.1 { return_value := "Auto-failed: no result provided" })
  else
    acc

/-- fill_uncovered: walk the pending deferred metadata, auto-resolving every
item not already covered by the collected feedback. -/
def fill_uncovered (metadata : List (String × ToolMetadata))
    (approvals : List (String × ApprovalValue))
    (calls : List (String × ToolReturnValue)) :
    List (String × ApprovalValue) × List (String × ToolReturnValue) :=
  metadata.foldl fillStep (approvals, calls)

/-- build_deferred_tool_results: None when the parent carries no pending
deferred metadata; otherwise collect the explicit feedback, fill the
uncovered items, and return None when nothing at all was produced. -/
def build_deferred_tool_results (parent_state : ResumableState)
    (user_interactions : Option (List UserInteraction))
    (tool_results : Option (List ToolResult)) : Option DeferredToolResults :=
  let metadata := parent_state.deferred_tool_metadata
  if metadata = [] then none
  else
    let approvals := collect_approvals user_interactions
    let calls := collect_calls tool_results
    let filled := fill_uncovered metadata approvals calls
    if filled.1 = [] ∧ filled.2 = [] then none
    else some { approvals := filled.1, calls := filled.2, metadata := metadata }

/-- The deferred-results value execute_session computes before delegating to
the runtime: build_deferred_tool_results is consulted only when a resumable
parent state exists AND at least one of user_interactions / tool_results is
a non-empty sequence (the if resumable_state and (user_interactions or
tool_results) guard). -/
def execute_session_deferred_results (resumable_state : Option ResumableState)
    (user_interactions : Option (List UserInteraction))
    (tool_results : Option (List ToolResult)) : Option DeferredToolResults :=
  match resumable_state with
  | none => none
  | some rs =>
    if pySeqTruthy user_interactions || pySeqTruthy tool_results then
      build_deferred_tool_results rs user_interactions tool_results
    else
      none

-- ---------------------------------------------------------------------------
-- Interrupt finalization (_handle_interrupt) and the coordinator-to-manager
-- commit call
-- ---------------------------------------------------------------------------

/-- The keyword-only parameters SessionManager.commit_session accepts
(managers/sessions.py signature): state, display_messages, run_summary,
status. -/
def commit_session_kw_params : List String :=
  ["state", "display_messages", "run_summary", "status"]

/-- The keyword arguments the coordinator passes to
session_manager.commit_session in _handle_interrupt and in the normal
completion path: state, final_message, run_summary, status. -/
def coordinator_commit_kwargs : List String :=
  ["state", "final_message", "run_summary", "status"]

/-- Keyword arguments of the coordinator call that commit_session does not
accept; Python raises TypeError at the call when this is non-empty. -/
def coordinator_commit_unexpected : List String :=
  coordinator_commit_kwargs.filter (fun k => !(commit_session_kw_params.contains k))

/-- Whether the coordinator commit call raises before entering
commit_session at all (an unexpected keyword argument). -/
def coordinator_commit_call_raises : Bool :=
  !coordinator_commit_unexpected.isEmpty

/-- Outcome record the coordinator returns (coordinator.py ExecutionResult;
the deferred_requests field only ever set on the normal completion path is
not consulted by the interrupted path modelled here). -/
structure ExecutionResult where
  session_id : String
  status : SessionStatus
  final_message : Option String
  run_summary : Option RunSummary
deriving DecidableEq, Repr

/-- What _handle_interrupt did: the returned result, whether the
commit_session attempt completed, and whether fail_session was called. -/
structure InterruptOutcome where
  result : ExecutionResult
  commit_succeeded : Bool
  fail_session_called : Bool
deriving DecidableEq, Repr

/-- _handle_interrupt: with an exported state, attempt
commit_session(status=COMMITTED); on any raise from the attempt (including
the TypeError from an unexpected keyword at the call itself, or a failure
inside commit_session modelled by commit_session_raises) fall back to
fail_session and report FAILED; with no exported state, fail_session
directly. -/
def handle_interrupt (session_id : String) (exported_state : Option SessionState)
    (exported_final : Option String) (summary : RunSummary)
    (commit_session_raises : Bool) : InterruptOutcome :=
  match exported_state with
  | some _ =>
    if coordinator_commit_call_raises || commit_session_raises then
      { result :=
          { session_id := session_id
            status := SessionStatus.failed
            final_message := none
            run_summary := some summary }
        commit_succeeded := false
        fail_session_called := true }
    else
      { result :=
          { session_id := session_id
            status := SessionStatus.committed
            final_message := exported_final
            run_summary := some summary }
        commit_succeeded := true
        fail_session_called := false }
  | none =>
    { result :=
        { session_id := session_id
          status := SessionStatus.failed
          final_message := exported_final
          run_summary := some summary }
      commit_succeeded := false
      fail_session_called := true }

-- ---------------------------------------------------------------------------
-- Concrete instances used by the witness and counterexample theorems
-- ---------------------------------------------------------------------------

/-- An empty state blob. -/
def wState : SessionState :=
  { context_state := [], message_history := [], environment_state := [] }

/-- A committed parent row under conversation conv0. -/
def wParentRow : SessionRow :=
  { session_id := "p1"
    parent_session_id := none
    project_ids := ["projA"]
    status := SessionStatus.committed
    session_type := SessionType.agent
    transport := Transport.sse
    conversation_id := "conv0"
    spawned_by := none
    preset_id := none
    run_summary := none }

/-- A database holding only the parent row and its conversation. -/
def wDb : Db :=
  { sessions := [("p1", wParentRow)]
    conversations := [("conv0", { conversation_id := "conv0", status := ConversationStatus.active })] }

/-- The result of creating a root session in the empty database. -/
def wRootOut : Db × SessionRow :=
  (create_session { sessions := [], conversations := [] } "r1" none none none none
      SessionType.agent Transport.sse none).toOption.getD
    ({ sessions := [], conversations := [] }, wParentRow)

/-- The result of creating a continuation of p1 in wDb. -/
def wChildOut : Db × SessionRow :=
  (create_session wDb "c1" (some "p1") none none none
      SessionType.agent Transport.sse none).toOption.getD (wDb, wParentRow)

/-- A created (orphanable) session row s1. -/
def wCreatedRow : SessionRow :=
  { session_id := "s1"
    parent_session_id := none
    project_ids := []
    status := SessionStatus.created
    session_type := SessionType.agent
    transport := Transport.sse
    conversation_id := "s1"
    spawned_by := none
    preset_id := none
    run_summary := none }

/-- A live registry handle for session s1. -/
def wRuntimeSession : RuntimeSession :=
  { session_id := "s1"
    conversation_id := "s1"
    parent_session_id := none
    preset_id := none
    session_type := SessionType.agent
    transport := Transport.sse
    streamer := none
    stream_key := none }

/-- Backend state with s1 created in the index, nothing in the store, and s1
registered as live. -/
def wManagerState : ManagerState :=
  { db := { sessions := [("s1", wCreatedRow)], conversations := [] }
    store := { states := [], display_messages := [] }
    registry := { sessions := [("s1", wRuntimeSession)], drain_event := false, shutting_down := false } }

/-- Effect environment in which every operation succeeds. -/
def wEffectsOk : CommitEffects :=
  { write_state_ok := true, write_display_ok := true, db_update_ok := true }

/-- Effect environment in which the relational update fails. -/
def wEffectsDbFail : CommitEffects :=
  { write_state_ok := true, write_display_ok := true, db_update_ok := false }

/-- A minimal model selection. -/
def wModelPreset : ModelPreset :=
  { name := "anthropic:claude-sonnet-4", context_window := none, temperature := none,
    max_tokens := none }

/-- An environment specifying no project source. -/
def wEnvDefault : EnvironmentSpec :=
  { shell_mode := ShellMode.local, workspace_id := none, project_ids := none,
    container_id := none, container_workdir := none }

/-- An environment illegally specifying both a workspace and a project list. -/
def wEnvConflicted : EnvironmentSpec :=
  { shell_mode := ShellMode.local, workspace_id := some "w1", project_ids := some ["b"],
    container_id := none, container_workdir := none }

/-- The default subagent block. -/
def wSubagents : SubagentSpec :=
  { include_builtin := true, async_enabled := false, refs := [] }

/-- Default preset p1 with system prompt X and a silent environment. -/
def wPreset : PresetRow :=
  { preset_id := "p1", name := "Preset One", description := none, model := wModelPreset,
    system_prompt := "X", toolsets := [], environment := wEnvDefault,
    subagents := wSubagents, is_default := true }

/-- Preset whose environment conflicts (both workspace and projects set). -/
def wPresetConflicted : PresetRow :=
  { wPreset with environment := wEnvConflicted }

/-- Resolver database with preset p1 and workspace w1 holding projects a, b. -/
def wResolverDb : ResolverDb :=
  { presets := [("p1", wPreset)]
    workspaces := [("w1", { workspace_id := "w1", projects := ["a", "b"] })] }

/-- Resolver database whose only preset carries the conflicted environment. -/
def wResolverDbPresetConflicted : ResolverDb :=
  { presets := [("p1", wPresetConflicted)]
    workspaces := [("w1", { workspace_id := "w1", projects := ["a", "b"] })] }

/-- An override whose environment is conflicted at the override level. -/
def wOverrideConflicted : ConfigOverride :=
  { model := none, system_prompt := none, toolsets := none,
    environment := some wEnvConflicted, subagents := none }

/-- Exported parent state with one pending approval-type deferred item t1 and
one pending call-type deferred item t2. -/
def wC2ParentState : ResumableState :=
  { deferred_tool_metadata := [("t1", [("type", "approval")]), ("t2", [("type", "call")])] }

/-- Caller feedback approving an unrelated tool call t9, covering neither
pending item. -/
def wC2Interactions : List UserInteraction :=
  [{ tool_call_id := "t9", approved := true }]

-- ===========================================================================
-- Theorems
-- ===========================================================================

-- Dictionary lemmas ---------------------------------------------------------

theorem dictGet_dictSet {β : Type} (d : List (String × β)) (k k' : String) (v : β) :
    dictGet (dictSet d k v) k' = if k = k' then some v else dictGet d k' := by
  induction d with
  | nil => simp [dictSet, dictGet]
  | cons hd tl ih =>
    obtain ⟨k1, v1⟩ := hd
    by_cases h1 : k1 = k
    · subst h1
      by_cases h2 : k1 = k'
      · subst h2; simp [dictSet, dictGet]
      · simp [dictSet, dictGet, h2]
    · by_cases h2 : k1 = k'
      · subst h2
        have hne : ¬ k = k1 := fun h => h1 h.symm
        simp [dictSet, dictGet, h1, hne]
      · simp [dictSet, dictGet, h1, h2, ih]

theorem dictGet_dictErase {β : Type} (d : List (String × β)) (k k' : String) :
    dictGet (dictErase d k) k' = if k = k' then none else dictGet d k' := by
  induction d with
  | nil => simp [dictErase, dictGet]
  | cons hd tl ih =>
    obtain ⟨k1, v1⟩ := hd
    by_cases h1 : k1 = k
    · subst h1
      by_cases h2 : k1 = k'
      · subst h2; simp [dictErase, dictGet, ih]
      · simp [dictErase, dictGet, h2, ih]
    · by_cases h2 : k1 = k'
      · subst h2
        have hne : ¬ k = k1 := fun h => h1 h.symm
        simp [dictErase, dictGet, h1, hne]
      · simp [dictErase, dictGet, h1, h2, ih]

theorem dictSet_ne_nil {β : Type} (d : List (String × β)) (k : String) (v : β) :
    dictSet d k v ≠ [] := by
  cases d with
  | nil => simp [dictSet]
  | cons hd tl =>
    obtain ⟨k1, v1⟩ := hd
    by_cases h : k1 = k <;> simp [dictSet, h]

theorem dict_eq_nil_of_forall_none {β : Type} (d : List (String × β))
    (h : ∀ k, dictGet d k = none) : d = [] := by
  cases d with
  | nil => rfl
  | cons hd tl =>
    obtain ⟨k1, v1⟩ := hd
    have h1 := h k1
    simp [dictGet] at h1

-- Registry lemmas (claim C8) ------------------------------------------------

theorem registry_run_append (r : SessionRegistry) (l1 l2 : List RegOp) :
    r.run (l1 ++ l2) = (r.run l1).run l2 := by
  simp [SessionRegistry.run, List.foldl_append]

theorem registry_run_cons (r : SessionRegistry) (op : RegOp) (ops : List RegOp) :
    r.run (op :: ops) = (r.step op).run ops := rfl

theorem registry_step_unregister_sessions (r : SessionRegistry) (sid : String) :
    (r.step (RegOp.unregister sid)).sessions = dictErase r.sessions sid := rfl

theorem registry_step_drain (r : SessionRegistry) (op : RegOp)
    (h : r.drain_event = r.sessions.isEmpty) :
    (r.step op).drain_event = (r.step op).sessions.isEmpty := by
  cases op with
  | register s =>
    by_cases hs : r.shutting_down
    · simpa [SessionRegistry.step, SessionRegistry.register, hs] using h
    · have hne := dictSet_ne_nil r.sessions s.session_id s
      simp [SessionRegistry.step, SessionRegistry.register, hs, List.isEmpty_iff, hne]
  | unregister sid =>
    by_cases he : (dictErase r.sessions sid).isEmpty
    · simp [SessionRegistry.step, SessionRegistry.unregister, he]
    · have hsrc : r.sessions.isEmpty = false := by
        rcases hcase : r.sessions with _ | ⟨hd, tl⟩
        · rw [hcase] at he
          simp [dictErase] at he
        · simp
      simp [SessionRegistry.step, SessionRegistry.unregister, he, h, hsrc]
  | begin_shutdown =>
    by_cases he : r.sessions.isEmpty
    · simp [SessionRegistry.step, SessionRegistry.begin_shutdown, he]
    · simp [SessionRegistry.step, SessionRegistry.begin_shutdown, he, h]

theorem registry_run_drain (ops : List RegOp) : ∀ (r : SessionRegistry),
    r.drain_event = r.sessions.isEmpty →
    (r.run ops).drain_event = (r.run ops).sessions.isEmpty := by
  induction ops with
  | nil => intro r h; exact h
  | cons op rest ih =>
    intro r h
    rw [registry_run_cons]
    exact ih _ (registry_step_drain r op h)

theorem registry_step_shutdown (r : SessionRegistry) (op : RegOp)
    (h : r.shutting_down = true) : (r.step op).shutting_down = true := by
  cases op with
  | register s => simp [SessionRegistry.step, SessionRegistry.register, h]
  | unregister sid => simp [SessionRegistry.step, SessionRegistry.unregister, h]
  | begin_shutdown => simp [SessionRegistry.step, SessionRegistry.begin_shutdown]

theorem registry_run_shutdown (ops : List RegOp) : ∀ (r : SessionRegistry),
    r.shutting_down = true → (r.run ops).shutting_down = true := by
  induction ops with
  | nil => intro r h; exact h
  | cons op rest ih =>
    intro r h
    rw [registry_run_cons]
    exact ih _ (registry_step_shutdown r op h)

theorem run_regOps_subset (ss : List RuntimeSession) : ∀ (r : SessionRegistry) (k : String),
    dictGet (r.run (regOps ss)).sessions k ≠ none →
    dictGet r.sessions k ≠ none ∨ k ∈ ss.map (fun s => s.session_id) := by
  induction ss with
  | nil => intro r k h; exact Or.inl h
  | cons s rest ih =>
    intro r k h
    have hcons : regOps (s :: rest) = RegOp.register s :: regOps rest := rfl
    rw [hcons, registry_run_cons] at h
    rcases ih _ k h with h1 | h1
    · by_cases hs : r.shutting_down
      · left
        simpa [SessionRegistry.step, SessionRegistry.register, hs] using h1
      · have hsess : (r.step (RegOp.register s)).sessions
            = dictSet r.sessions s.session_id s := by
          simp [SessionRegistry.step, SessionRegistry.register, hs]
        rw [hsess, dictGet_dictSet] at h1
        by_cases hk : s.session_id = k
        · right
          simp [← hk]
        · left
          simpa [hk] using h1
    · right
      simpa using Or.inr (by simpa using h1)

theorem run_unregOps_erases (ss : List RuntimeSession) : ∀ (r : SessionRegistry) (k : String),
    dictGet (r.run (unregOps ss)).sessions k ≠ none →
    dictGet r.sessions k ≠ none ∧ k ∉ ss.map (fun s => s.session_id) := by
  induction ss with
  | nil => intro r k h; exact ⟨h, by simp⟩
  | cons s rest ih =>
    intro r k h
    have hcons : unregOps (s :: rest) = RegOp.unregister s.session_id :: unregOps rest := rfl
    rw [hcons, registry_run_cons] at h
    obtain ⟨h2, h3⟩ := ih _ k h
    rw [registry_step_unregister_sessions, dictGet_dictErase] at h2
    by_cases hk : s.session_id = k
    · rw [if_pos hk] at h2
      exact absurd rfl h2
    · rw [if_neg hk] at h2
      refine ⟨h2, ?_⟩
      simp only [List.map_cons, List.mem_cons]
      rintro (h4 | h4)
      · exact hk h4.symm
      · exact h3 h4

/-- Claim C8: the drained condition tracked by the registry holds exactly
when no session is registered, over every call sequence from a fresh
registry; registering N sessions then unregistering all of them empties the
registry, so a pending wait_until_drained returns true; and once
begin_shutdown has been called, every later register call raises
ShuttingDownError and leaves the registry unchanged. -/
theorem claim_C8_registry_drain_and_shutdown :
    (∀ ops : List RegOp,
      (SessionRegistry.init.run ops).drain_event
        = (SessionRegistry.init.run ops).sessions.isEmpty)
    ∧ (∀ ss : List RuntimeSession,
      (SessionRegistry.init.run (regOps ss ++ unregOps ss)).sessions = []
      ∧ (SessionRegistry.init.run (regOps ss ++ unregOps ss)).wait_until_drained_completes
          = true)
    ∧ (∀ (pre post : List RegOp) (s : RuntimeSession),
      (SessionRegistry.init.run (pre ++ RegOp.begin_shutdown :: post)).register s
          = Except.error ShuttingDownError.mk
      ∧ (SessionRegistry.init.run (pre ++ RegOp.begin_shutdown :: post)).step
            (RegOp.register s)
          = SessionRegistry.init.run (pre ++ RegOp.begin_shutdown :: post)) := by
  refine ⟨?_, ?_, ?_⟩
  · intro ops
    exact registry_run_drain ops SessionRegistry.init rfl
  · intro ss
    have hnil : (SessionRegistry.init.run (regOps ss ++ unregOps ss)).sessions = [] := by
      rw [registry_run_append]
      apply dict_eq_nil_of_forall_none
      intro k
      by_contra hne
      obtain ⟨h2, h3⟩ := run_unregOps_erases ss (SessionRegistry.init.run (regOps ss)) k hne
      rcases run_regOps_subset ss SessionRegistry.init k h2 with h4 | h4
      · exact h4 rfl
      · exact h3 h4
    exact ⟨hnil, by simp [SessionRegistry.wait_until_drained_completes, hnil]⟩
  · intro pre post s
    have hsd : (SessionRegistry.init.run (pre ++ RegOp.begin_shutdown :: post)).shutting_down
        = true := by
      rw [registry_run_append, registry_run_cons]
      apply registry_run_shutdown
      simp [SessionRegistry.step, SessionRegistry.begin_shutdown]
    constructor
    · rw [SessionRegistry.register, if_pos hsd]
    · simp [SessionRegistry.step, SessionRegistry.register, hsd]

-- Claim C6: orphan recovery -------------------------------------------------

theorem recover_row_changed (r : SessionRow) :
    (decide (r.status = SessionStatus.created)) = decide (¬ recover_row r = r) := by
  by_cases h : r.status = SessionStatus.created
  · have hne : ¬ recover_row r = r := by
      intro heq
      have hst : (recover_row r).status = r.status := congrArg SessionRow.status heq
      rw [recover_row, if_pos h] at hst
      rw [h] at hst
      exact SessionStatus.noConfusion hst
    simp [h, hne]
  · have heq : recover_row r = r := by rw [recover_row, if_neg h]
    simp [h, heq]

/-- Claim C6: after recover_orphaned_sessions, every row that was in status
created is failed, every row in any other status is unchanged, and the
returned count equals the number of rows whose status changed. -/
theorem claim_C6_recover_orphans (db : Db) :
    (∀ k, dictGet (recover_orphaned_sessions db).1.sessions k
        = (dictGet db.sessions k).map recover_row)
    ∧ (recover_orphaned_sessions db).2
        = (db.sessions.filter fun p => decide (¬ recover_row p.2 = p.2)).length := by
  constructor
  · intro k
    show dictGet (db.sessions.map fun p => (p.1, recover_row p.2)) k
        = (dictGet db.sessions k).map recover_row
    induction db.sessions with
    | nil => simp [dictGet]
    | cons hd tl ih =>
      obtain ⟨k1, v1⟩ := hd
      by_cases h : k1 = k
      · subst h; simp [dictGet]
      · simp [dictGet, h, ih]
  · show (db.sessions.filter fun p => decide (p.2.status = SessionStatus.created)).length = _
    have hcong :
        (db.sessions.filter fun p => decide (p.2.status = SessionStatus.created))
          = db.sessions.filter fun p => decide (¬ recover_row p.2 = p.2) := by
      apply List.filter_congr
      intro p _
      exact recover_row_changed p.2
    rw [hcong]

-- Claim C7: conversation identity rules of create_session --------------------

/-- Claim C7: a root session (no parent, no explicit conversation id) gets
conversation_id equal to its own session_id; a continuation (parent given,
no explicit conversation id) inherits the parent row's conversation_id. -/
theorem claim_C7_conversation_identity :
    (∀ (db : Db) (sid : String) (preset_id : Option String)
        (project_ids : Option (List String)) (sty : SessionType) (tr : Transport)
        (spawned_by : Option String) (out : Db × SessionRow),
      create_session db sid none none preset_id project_ids sty tr spawned_by
          = Except.ok out →
        out.2.conversation_id = out.2.session_id ∧ out.2.session_id = sid)
    ∧ (∀ (db : Db) (sid pid : String) (parent : SessionRow) (preset_id : Option String)
        (project_ids : Option (List String)) (sty : SessionType) (tr : Transport)
        (spawned_by : Option String) (out : Db × SessionRow),
      dictGet db.sessions pid = some parent →
      create_session db sid (some pid) none preset_id project_ids sty tr spawned_by
          = Except.ok out →
        out.2.conversation_id = parent.conversation_id) := by
  constructor
  · intro db sid preset_id project_ids sty tr spawned_by out h
    rw [create_session.eq_def] at h
    dsimp only at h
    have h2 := Except.ok.inj h
    rw [← h2]
    exact ⟨rfl, rfl⟩
  · intro db sid pid parent preset_id project_ids sty tr spawned_by out hpar h
    rw [create_session.eq_def] at h
    dsimp only at h
    rw [hpar] at h
    dsimp only at h
    have h2 := Except.ok.inj h
    rw [← h2]

/-- Witness for C7 at concrete inputs: a root creation in the empty database
and a continuation of the committed parent p1. -/
theorem claim_C7_witness :
    (create_session { sessions := [], conversations := [] } "r1" none none none none
        SessionType.agent Transport.sse none = Except.ok wRootOut
      ∧ wRootOut.2.conversation_id = wRootOut.2.session_id
      ∧ wRootOut.2.session_id = "r1")
    ∧ (dictGet wDb.sessions "p1" = some wParentRow
      ∧ create_session wDb "c1" (some "p1") none none none
          SessionType.agent Transport.sse none = Except.ok wChildOut
      ∧ wChildOut.2.conversation_id = wParentRow.conversation_id) := by
  refine ⟨⟨rfl, ?_⟩, rfl, rfl, ?_⟩
  · exact claim_C7_conversation_identity.1 { sessions := [], conversations := [] } "r1"
      none none SessionType.agent Transport.sse none wRootOut rfl
  · exact claim_C7_conversation_identity.2 wDb "c1" "p1" wParentRow
      none none SessionType.agent Transport.sse none wChildOut rfl rfl

-- Claim C9: commit_session status validation ---------------------------------

/-- Claim C9: commit_session called with any status other than committed or
awaiting_tool_results raises the caller ValueError before producing any
side effect: the store, the relational row and the registry are exactly as
before. -/
theorem claim_C9_commit_rejects_non_success
    (st : ManagerState) (eff : CommitEffects) (sid : String) (state : SessionState)
    (dm : Option DisplayMessages) (rs : Option RunSummary) (status : SessionStatus)
    (h1 : status ≠ SessionStatus.committed)
    (h2 : status ≠ SessionStatus.awaiting_tool_results) :
    commit_session st eff sid state dm rs status
      = (st, Except.error (CommitRaise.invalidStatus status)) := by
  rw [commit_session, if_pos]
  rintro (h | h)
  · exact h1 h
  · exact h2 h

/-- Witness for C9 at a concrete input: committing s1 with status created is
rejected and leaves the backend state untouched. -/
theorem claim_C9_witness :
    SessionStatus.created ≠ SessionStatus.committed
    ∧ SessionStatus.created ≠ SessionStatus.awaiting_tool_results
    ∧ commit_session wManagerState wEffectsOk "s1" wState none none SessionStatus.created
        = (wManagerState, Except.error (CommitRaise.invalidStatus SessionStatus.created)) := by
  refine ⟨by decide, by decide, ?_⟩
  exact claim_C9_commit_rejects_non_success wManagerState wEffectsOk "s1" wState none none
    SessionStatus.created (by decide) (by decide)

-- Claim C1: commit ordering across store, index and registry -----------------

/-- Claim C1: commit_session writes the state blob before flipping the
relational status (a flipped row implies the blob is present); when it
returns successfully the blob exists and the session is gone from the
registry; when it raises at any of its effect points the session is still
registered and the relational row still reads created. -/
theorem claim_C1_commit_ordering
    (st : ManagerState) (eff : CommitEffects) (sid : String) (state : SessionState)
    (dm : Option DisplayMessages) (rs : Option RunSummary) (status : SessionStatus)
    (row : SessionRow) (out : ManagerState × Except CommitRaise (Option SessionRow))
    (hrow : dictGet st.db.sessions sid = some row)
    (hcreated : row.status = SessionStatus.created)
    (hreg : dictGet st.registry.sessions sid ≠ none)
    (hstatus : status = SessionStatus.committed ∨ status = SessionStatus.awaiting_tool_results)
    (hout : commit_session st eff sid state dm rs status = out) :
    (∀ v, out.2 = Except.ok v →
      dictGet out.1.store.states sid = some state
      ∧ dictGet out.1.registry.sessions sid = none)
    ∧ (∀ e, out.2 = Except.error e →
      out.1.db = st.db ∧ out.1.registry = st.registry
      ∧ dictGet out.1.registry.sessions sid ≠ none
      ∧ (dictGet out.1.db.sessions sid).map SessionRow.status = some SessionStatus.created)
    ∧ (∀ r1, dictGet out.1.db.sessions sid = some r1 →
        r1.status ≠ SessionStatus.created → dictGet out.1.store.states sid = some state) := by
  subst hout
  obtain ⟨ws, wd, du⟩ := eff
  rcases hstatus with hs | hs <;> subst hs <;>
    cases ws <;> cases wd <;> cases du <;> rcases dm with _ | msgs <;>
      refine ⟨fun v hv => ?_, fun e he => ?_, fun r1 hr1 hne => ?_⟩ <;>
        simp_all [commit_session, commit_db_update, commit_update_row,
          SessionRegistry.unregister, dictGet_dictSet, dictGet_dictErase, hrow, hcreated]

/-- Witness for C1 at a concrete input: committing s1 with every effect
succeeding, and with the relational update failing. -/
theorem claim_C1_witness :
    (dictGet wManagerState.db.sessions "s1" = some wCreatedRow
      ∧ wCreatedRow.status = SessionStatus.created
      ∧ dictGet wManagerState.registry.sessions "s1" ≠ none)
    ∧ (∀ v, (commit_session wManagerState wEffectsOk "s1" wState none none
          SessionStatus.committed).2 = Except.ok v →
        dictGet (commit_session wManagerState wEffectsOk "s1" wState none none
            SessionStatus.committed).1.store.states "s1" = some wState
        ∧ dictGet (commit_session wManagerState wEffectsOk "s1" wState none none
            SessionStatus.committed).1.registry.sessions "s1" = none)
    ∧ (∀ e, (commit_session wManagerState wEffectsDbFail "s1" wState none none
          SessionStatus.committed).2 = Except.error e →
        (commit_session wManagerState wEffectsDbFail "s1" wState none none
            SessionStatus.committed).1.db = wManagerState.db
        ∧ (commit_session wManagerState wEffectsDbFail "s1" wState none none
            SessionStatus.committed).1.registry = wManagerState.registry
        ∧ dictGet (commit_session wManagerState wEffectsDbFail "s1" wState none none
            SessionStatus.committed).1.registry.sessions "s1" ≠ none
        ∧ (dictGet (commit_session wManagerState wEffectsDbFail "s1" wState none none
            SessionStatus.committed).1.db.sessions "s1").map SessionRow.status
            = some SessionStatus.created) := by
  refine ⟨⟨rfl, rfl, by decide⟩, ?_, ?_⟩
  · exact (claim_C1_commit_ordering wManagerState wEffectsOk "s1" wState none none
      SessionStatus.committed wCreatedRow _ rfl rfl (by decide) (Or.inl rfl) rfl).1
  · exact (claim_C1_commit_ordering wManagerState wEffectsDbFail "s1" wState none none
      SessionStatus.committed wCreatedRow _ rfl rfl (by decide) (Or.inl rfl) rfl).2.1

-- Claim C10: get_session swallows the store not-found ------------------------

/-- Claim C10: when the index row exists but the state blob is absent from
the store, get_session with include_state does not propagate the store
not-found error: it returns the row with the state field set to none. -/
theorem claim_C10_get_session_swallows_missing_state
    (db : Db) (store : StoreState) (sid : String) (row : SessionRow) (idm : Bool)
    (hrow : dictGet db.sessions sid = some row)
    (hstate : dictGet store.states sid = none) :
    get_session db store sid true idm
      = Except.ok
          { index := row
            state := some none
            display_messages :=
              if idm then some (dictGet store.display_messages sid) else none } := by
  rw [get_session, hrow, hstate]
  simp

/-- Witness for C10 at a concrete input: s1 exists relationally, the store is
empty, and get_session returns the row with state none. -/
theorem claim_C10_witness :
    dictGet wManagerState.db.sessions "s1" = some wCreatedRow
    ∧ dictGet wManagerState.store.states "s1" = none
    ∧ get_session wManagerState.db wManagerState.store "s1" true false
        = Except.ok { index := wCreatedRow, state := some none, display_messages := none } := by
  refine ⟨rfl, rfl, ?_⟩
  have h := claim_C10_get_session_swallows_missing_state wManagerState.db wManagerState.store
    "s1" wCreatedRow false rfl rfl
  simpa using h

-- Claim C3: conflict detection per level --------------------------------------

/-- Counterexample to C3 as stated: the override environment specifies both a
workspace reference and an explicit project list, yet resolve_config does
not raise the override-level conflict, because the request level already
supplies a project list and resolution stops there. -/
theorem claim_C3_counterexample :
    resolve_config wResolverDb (some "p1") (some wOverrideConflicted) none (some ["a"]) none
      = Except.ok
          { preset_id := "p1", model := wModelPreset, system_prompt := "X", toolsets := [],
            subagents := wSubagents, shell_mode := ShellMode.local, project_ids := ["a"],
            container_id := none, container_workdir := none } := rfl

/-- Claim C3 as amended: a both-set conflict at a level is raised, naming
that level, whenever resolution reaches that level: a request-level
conflict is raised unconditionally, before anything else is consulted; an
override-level conflict is raised provided the preset loads and the
request level supplies neither a workspace nor a project list; a
preset-level conflict is raised provided additionally the override
environment supplies nothing.  Once raised, no lower-priority level is
consulted (the error is independent of all lower-priority inputs). -/
theorem claim_C3_amended :
    (∀ (db : ResolverDb) (preset_id : Option String) (override : Option ConfigOverride)
        (w : String) (ps : List String) (parent : Option (List String)),
      resolve_config db preset_id override (some w) (some ps) parent
        = Except.error (ResolveError.projectConflict "request"))
    ∧ (∀ (db : ResolverDb) (preset_id : Option String) (override : Option ConfigOverride)
        (preset : PresetRow) (env : EnvironmentSpec) (parent : Option (List String)),
      load_preset db preset_id = Except.ok preset →
      override.bind (fun o => o.environment) = some env →
      env.workspace_id.isSome = true → env.project_ids.isSome = true →
      resolve_config db preset_id override none none parent
        = Except.error (ResolveError.projectConflict "override"))
    ∧ (∀ (db : ResolverDb) (preset_id : Option String) (override : Option ConfigOverride)
        (preset : PresetRow) (parent : Option (List String)),
      load_preset db preset_id = Except.ok preset →
      envSpecifies (override.bind (fun o => o.environment)) = false →
      preset.environment.workspace_id.isSome = true →
      preset.environment.project_ids.isSome = true →
      resolve_config db preset_id override none none parent
        = Except.error (ResolveError.projectConflict "preset")) := by
  refine ⟨?_, ?_, ?_⟩
  · intro db preset_id override w ps parent
    rw [resolve_config.eq_def]
    simp
  · intro db preset_id override preset env parent hload hov hw hp
    rw [resolve_config.eq_def]
    simp only [Option.isSome_none, Bool.false_eq_true, false_and, if_false]
    rw [hload]
    dsimp only
    rw [hov]
    rw [resolve_projects.eq_def]
    dsimp only
    rw [resolve_env_projects.eq_def, if_pos ⟨hw, hp⟩]
  · intro db preset_id override preset parent hload hov hw hp
    rw [resolve_config.eq_def]
    simp only [Option.isSome_none, Bool.false_eq_true, false_and, if_false]
    rw [hload]
    dsimp only
    rw [resolve_projects.eq_def]
    dsimp only
    have h2 :
        (match override.bind (fun o => o.environment) with
          | some env => resolve_env_projects db env "override"
          | none => Except.ok none)
          = Except.ok (none : Option (List String)) := by
      rcases hoe : override.bind (fun o => o.environment) with _ | e
      · rfl
      · dsimp only
        rw [resolve_env_projects.eq_def]
        rcases hwe : e.workspace_id with _ | w
        · rcases hpe : e.project_ids with _ | ps2
          · simp [hwe, hpe]
          · rw [hoe, envSpecifies, hwe, hpe] at hov
            simp at hov
        · rw [hoe, envSpecifies, hwe] at hov
          simp at hov
    rw [h2]
    dsimp only
    rw [resolve_env_projects.eq_def, if_pos ⟨hw, hp⟩]

/-- Witness for the amended C3 at concrete inputs: a request-level conflict,
an override-level conflict reached from a silent request level, and a
preset-level conflict reached from silent request and override levels. -/
theorem claim_C3_witness :
    (resolve_config wResolverDb (some "p1") none (some "w1") (some ["c"]) none
        = Except.error (ResolveError.projectConflict "request"))
    ∧ (load_preset wResolverDb (some "p1") = Except.ok wPreset
      ∧ resolve_config wResolverDb (some "p1") (some wOverrideConflicted) none none none
          = Except.error (ResolveError.projectConflict "override"))
    ∧ (load_preset wResolverDbPresetConflicted (some "p1") = Except.ok wPresetConflicted
      ∧ resolve_config wResolverDbPresetConflicted (some "p1") none none none none
          = Except.error (ResolveError.projectConflict "preset")) := by
  refine ⟨?_, ⟨rfl, ?_⟩, ⟨rfl, ?_⟩⟩
  · exact claim_C3_amended.1 wResolverDb (some "p1") none "w1" ["c"] none
  · exact claim_C3_amended.2.1 wResolverDb (some "p1") (some wOverrideConflicted)
      wPreset wEnvConflicted none rfl rfl rfl rfl
  · exact claim_C3_amended.2.2 wResolverDbPresetConflicted (some "p1") none
      wPresetConflicted none rfl rfl rfl rfl

-- Claim C4: project priority chain -------------------------------------------

theorem resolve_projects_eq_chain (db : ResolverDb)
    (req_ws : Option String) (req_ps : Option (List String))
    (ov_env : Option EnvironmentSpec) (preset_env : EnvironmentSpec)
    (parent : Option (List String))
    (hov : ∀ e, ov_env = some e → (e.workspace_id = none ∨ e.project_ids = none))
    (hpre : preset_env.workspace_id = none ∨ preset_env.project_ids = none)
    (hwr : ∀ w, req_ws = some w → (dictGet db.workspaces w).isSome = true)
    (hwo : ∀ e w, ov_env = some e → e.workspace_id = some w →
      (dictGet db.workspaces w).isSome = true)
    (hwp : ∀ w, preset_env.workspace_id = some w →
      (dictGet db.workspaces w).isSome = true) :
    resolve_projects db req_ws req_ps ov_env preset_env parent
      = Except.ok (specChainProjects db req_ws req_ps ov_env preset_env parent) := by
  rw [resolve_projects.eq_def, specChainProjects.eq_def]
  rcases hw : req_ws with _ | w
  · dsimp only
    rcases hps : req_ps with _ | ps
    · have hlv1 : specLevelValue db none none = (none : Option (List String)) := rfl
      rw [hlv1]
      dsimp only
      have hov2 :
          (match ov_env with
            | some env => resolve_env_projects db env "override"
            | none => Except.ok none)
            = Except.ok (ov_env.bind fun e => specLevelValue db e.workspace_id e.project_ids) := by
        rcases hoe : ov_env with _ | e
        · rfl
        · dsimp only
          rw [resolve_env_projects.eq_def]
          rcases hwe : e.workspace_id with _ | w2
          · rcases hpe : e.project_ids with _ | ps2 <;>
              simp [hwe, hpe, specLevelValue]
          · rcases hov e hoe with h1 | h1
            · rw [hwe] at h1; cases h1
            · have hsome := hwo e w2 hoe hwe
              rcases hws : dictGet db.workspaces w2 with _ | wrow
              · rw [hws] at hsome; cases hsome
              · simp [hwe, h1, specLevelValue, resolve_workspace, hws]
      rw [hov2]
      rcases hoev : (ov_env.bind fun e => specLevelValue db e.workspace_id e.project_ids)
          with _ | v
      · dsimp only
        rw [resolve_env_projects.eq_def]
        rcases hwp2 : preset_env.workspace_id with _ | w3
        · rcases hpp : preset_env.project_ids with _ | ps3
          · rcases parent with _ | pv <;> simp [specLevelValue]
          · simp [specLevelValue]
        · rcases hpre with h1 | h1
          · rw [hwp2] at h1; cases h1
          · have hsome := hwp w3 hwp2
            rcases hws : dictGet db.workspaces w3 with _ | wrow
            · rw [hws] at hsome; cases hsome
            · simp [h1, specLevelValue, resolve_workspace, hws]
      · rfl
    · simp [specLevelValue]
  · have hsome := hwr w hw
    rcases hws : dictGet db.workspaces w with _ | wrow
    · rw [hws] at hsome; cases hsome
    · simp [resolve_workspace, hws, specLevelValue]

/-- Claim C4: for conflict-free inputs whose referenced workspaces resolve,
the resolved project_ids equal the value supplied by the first source of the
priority chain (request, override environment, preset environment, parent
session, empty list), as captured by the spec-side definition
specChainProjects; lower-priority sources cannot affect the result once a
higher one supplies a value. -/
theorem claim_C4_project_priority_chain (db : ResolverDb) (preset_id : Option String)
    (override : Option ConfigOverride)
    (req_ws : Option String) (req_ps : Option (List String))
    (parent : Option (List String)) (preset : PresetRow)
    (hload : load_preset db preset_id = Except.ok preset)
    (hreq : req_ws = none ∨ req_ps = none)
    (hov : ∀ e, override.bind (fun o => o.environment) = some e →
      (e.workspace_id = none ∨ e.project_ids = none))
    (hpre : preset.environment.workspace_id = none ∨ preset.environment.project_ids = none)
    (hwr : ∀ w, req_ws = some w → (dictGet db.workspaces w).isSome = true)
    (hwo : ∀ e w, override.bind (fun o => o.environment) = some e →
      e.workspace_id = some w → (dictGet db.workspaces w).isSome = true)
    (hwp : ∀ w, preset.environment.workspace_id = some w →
      (dictGet db.workspaces w).isSome = true) :
    ∃ cfg, resolve_config db preset_id override req_ws req_ps parent = Except.ok cfg
      ∧ cfg.project_ids
          = specChainProjects db req_ws req_ps (override.bind fun o => o.environment)
              preset.environment parent := by
  have hrp := resolve_projects_eq_chain db req_ws req_ps
    (override.bind fun o => o.environment) preset.environment parent
    hov hpre hwr hwo hwp
  rw [resolve_config.eq_def]
  have hreqif : ¬ (req_ws.isSome = true ∧ req_ps.isSome = true) := by
    rcases hreq with h | h <;> rw [h] <;> simp
  rw [if_neg hreqif, hload]
  dsimp only
  rw [hrp]
  exact ⟨_, rfl, rfl⟩

/-- Witness for C4 at a concrete input: request-level workspace w1 resolves
to its project list a, b against the default preset. -/
theorem claim_C4_witness :
    load_preset wResolverDb (some "p1") = Except.ok wPreset
    ∧ (∃ cfg, resolve_config wResolverDb (some "p1") none (some "w1") none none
          = Except.ok cfg
        ∧ cfg.project_ids
            = specChainProjects wResolverDb (some "w1") none none wPreset.environment none)
    ∧ specChainProjects wResolverDb (some "w1") none none wPreset.environment none
        = ["a", "b"] := by
  refine ⟨rfl, ?_, rfl⟩
  exact claim_C4_project_priority_chain wResolverDb (some "p1") none (some "w1") none none
    wPreset rfl (Or.inr rfl)
    (fun e he => Option.noConfusion he)
    (Or.inl rfl)
    (fun w hw => by rw [← Option.some.inj hw]; rfl)
    (fun e w he => Option.noConfusion he)
    (fun w hw => Option.noConfusion hw)

-- Claim C2: auto-resolution of uncovered deferred items -----------------------

theorem fillStep_other
    (ac : List (String × ApprovalValue) × List (String × ToolReturnValue))
    (item : String × ToolMetadata) (id : String) (hne : item.1 ≠ id) :
    dictGet (fillStep ac item).1 id = dictGet ac.1 id
    ∧ dictGet (fillStep ac item).2 id = dictGet ac.2 id := by
  rw [fillStep.eq_def]
  dsimp only
  split_ifs with h1 h2
  · exact ⟨by rw [dictGet_dictSet, if_neg hne], rfl⟩
  · exact ⟨rfl, by rw [dictGet_dictSet, if_neg hne]⟩
  · exact ⟨rfl, rfl⟩

theorem fill_not_mem (md : List (String × ToolMetadata)) :
    ∀ (ac : List (String × ApprovalValue) × List (String × ToolReturnValue)) (id : String),
    id ∉ md.map Prod.fst →
    dictGet (md.foldl fillStep ac).1 id = dictGet ac.1 id
    ∧ dictGet (md.foldl fillStep ac).2 id = dictGet ac.2 id := by
  induction md with
  | nil => intro ac id _; exact ⟨rfl, rfl⟩
  | cons item rest ih =>
    intro ac id h
    have hne : item.1 ≠ id := by
      intro he
      exact h (by simp [he])
    have hrest : id ∉ rest.map Prod.fst := by
      intro hm
      exact h (by simp [hm])
    have hstep := fillStep_other ac item id hne
    have hfold := ih (fillStep ac item) id hrest
    exact ⟨hfold.1.trans hstep.1, hfold.2.trans hstep.2⟩

theorem fill_mem_approval (md : List (String × ToolMetadata)) :
    ∀ (ac : List (String × ApprovalValue) × List (String × ToolReturnValue))
      (id : String) (meta : ToolMetadata),
    (md.map Prod.fst).Nodup → (id, meta) ∈ md → metaGetType meta = "approval" →
    dictGet ac.1 id = none →
    dictGet (md.foldl fillStep ac).1 id
      = some (ApprovalValue.toolDenied (some "Auto-denied: no response provided")) := by
  induction md with
  | nil => intro ac id meta _ hmem _ _; cases hmem
  | cons item rest ih =>
    intro ac id meta hnd hmem htype hnone
    have hnd1 : (item.1 :: rest.map Prod.fst).Nodup := by
      rw [List.map_cons] at hnd
      exact hnd
    have hnd2 := List.nodup_cons.mp hnd1
    rcases List.mem_cons.mp hmem with heq | hmem2
    · have hitem : item = (id, meta) := heq.symm
      subst hitem
      have hstep : (fillStep ac (id, meta)).1
          = dictSet ac.1 id
              (ApprovalValue.toolDenied (some "Auto-denied: no response provided")) := by
        rw [fillStep.eq_def]
        dsimp only
        rw [if_pos ⟨htype, hnone⟩]
      have hnotin : id ∉ rest.map Prod.fst := hnd2.1
      have hfold := fill_not_mem rest (fillStep ac (id, meta)) id hnotin
      rw [List.foldl_cons, hfold.1, hstep, dictGet_dictSet, if_pos rfl]
    · have hid : id ∈ rest.map Prod.fst := by
        exact List.mem_map.mpr ⟨(id, meta), hmem2, rfl⟩
      have hne : item.1 ≠ id := by
        intro he
        rw [← he] at hid
        exact hnd2.1 hid
      have hnone2 : dictGet (fillStep ac item).1 id = none := by
        rw [(fillStep_other ac item id hne).1]
        exact hnone
      rw [List.foldl_cons]
      exact ih (fillStep ac item) id meta hnd2.2 hmem2 htype hnone2

theorem fill_mem_call (md : List (String × ToolMetadata)) :
    ∀ (ac : List (String × ApprovalValue) × List (String × ToolReturnValue))
      (id : String) (meta : ToolMetadata),
    (md.map Prod.fst).Nodup → (id, meta) ∈ md → metaGetType meta = "call" →
    dictGet ac.2 id = none →
    dictGet (md.foldl fillStep ac).2 id
      = some { return_value := "Auto-failed: no result provided" } := by
  induction md with
  | nil => intro ac id meta _ hmem _ _; cases hmem
  | cons item rest ih =>
    intro ac id meta hnd hmem htype hnone
    have hnd1 : (item.1 :: rest.map Prod.fst).Nodup := by
      rw [List.map_cons] at hnd
      exact hnd
    have hnd2 := List.nodup_cons.mp hnd1
    rcases List.mem_cons.mp hmem with heq | hmem2
    · have hitem : item = (id, meta) := heq.symm
      subst hitem
      have hstep : (fillStep ac (id, meta)).2
          = dictSet ac.2 id { return_value := "Auto-failed: no result provided" } := by
        rw [fillStep.eq_def]
        dsimp only
        rw [if_neg, if_pos ⟨htype, hnone⟩]
        rintro ⟨h1, _⟩
        rw [htype] at h1
        exact absurd h1 (by decide)
      have hnotin : id ∉ rest.map Prod.fst := hnd2.1
      have hfold := fill_not_mem rest (fillStep ac (id, meta)) id hnotin
      rw [List.foldl_cons, hfold.2, hstep, dictGet_dictSet, if_pos rfl]
    · have hid : id ∈ rest.map Prod.fst := by
        exact List.mem_map.mpr ⟨(id, meta), hmem2, rfl⟩
      have hne : item.1 ≠ id := by
        intro he
        rw [← he] at hid
        exact hnd2.1 hid
      have hnone2 : dictGet (fillStep ac item).2 id = none := by
        rw [(fillStep_other ac item id hne).2]
        exact hnone
      rw [List.foldl_cons]
      exact ih (fillStep ac item) id meta hnd2.2 hmem2 htype hnone2

/-- Counterexample to C2 as stated: a parent state carrying a pending
approval-type deferred item, continued with empty caller feedback, produces
no DeferredToolResults at all (the uncovered item is not auto-denied),
because execute_session consults build_deferred_tool_results only when at
least one feedback sequence is non-empty. -/
theorem claim_C2_counterexample :
    execute_session_deferred_results
        (some { deferred_tool_metadata := [("t1", [("type", "approval")])] }) none none = none
    ∧ execute_session_deferred_results
        (some { deferred_tool_metadata := [("t1", [("type", "approval")])] })
        (some []) (some []) = none := ⟨rfl, rfl⟩

/-- Claim C2 as amended: when an execution continues from a parent whose
exported state carries pending deferred items AND at least one of
user_interactions / tool_results is supplied non-empty, every pending item
not covered by the explicit feedback is auto-resolved in the
DeferredToolResults delegated to the runtime: an uncovered approval-type
item becomes a denial with the explanatory message, an uncovered call-type
item becomes a synthetic failure result.  (With both feedback sequences
empty or absent, nothing is built, per the counterexample.) -/
theorem claim_C2_deferred_autoresolve
    (rs : ResumableState) (ui : Option (List UserInteraction)) (tr : Option (List ToolResult))
    (id : String) (meta : ToolMetadata)
    (hnd : (rs.deferred_tool_metadata.map Prod.fst).Nodup)
    (hmem : (id, meta) ∈ rs.deferred_tool_metadata)
    (hguard : (pySeqTruthy ui || pySeqTruthy tr) = true) :
    (metaGetType meta = "approval" → dictGet (collect_approvals ui) id = none →
      ((execute_session_deferred_results (some rs) ui tr).bind fun d => dictGet d.approvals id)
        = some (ApprovalValue.toolDenied (some "Auto-denied: no response provided")))
    ∧ (metaGetType meta = "call" → dictGet (collect_calls tr) id = none →
      ((execute_session_deferred_results (some rs) ui tr).bind fun d => dictGet d.calls id)
        = some { return_value := "Auto-failed: no result provided" }) := by
  have hmd_ne : ¬ rs.deferred_tool_metadata = [] := by
    intro h
    rw [h] at hmem
    cases hmem
  have hmain : execute_session_deferred_results (some rs) ui tr
      = build_deferred_tool_results rs ui tr := by
    rw [execute_session_deferred_results.eq_def]
    dsimp only
    rw [if_pos hguard]
  constructor
  · intro htype hnone
    have hga := fill_mem_approval rs.deferred_tool_metadata
      (collect_approvals ui, collect_calls tr) id meta hnd hmem htype hnone
    have hcond : ¬ ((fill_uncovered rs.deferred_tool_metadata (collect_approvals ui)
        (collect_calls tr)).1 = []
        ∧ (fill_uncovered rs.deferred_tool_metadata (collect_approvals ui)
            (collect_calls tr)).2 = []) := by
      rintro ⟨h1, _⟩
      rw [fill_uncovered] at h1
      rw [h1] at hga
      cases hga
    rw [hmain, build_deferred_tool_results.eq_def]
    dsimp only
    rw [if_neg hmd_ne, if_neg hcond]
    dsimp only [Option.bind]
    exact hga
  · intro htype hnone
    have hgc := fill_mem_call rs.deferred_tool_metadata
      (collect_approvals ui, collect_calls tr) id meta hnd hmem htype hnone
    have hcond : ¬ ((fill_uncovered rs.deferred_tool_metadata (collect_approvals ui)
        (collect_calls tr)).1 = []
        ∧ (fill_uncovered rs.deferred_tool_metadata (collect_approvals ui)
            (collect_calls tr)).2 = []) := by
      rintro ⟨_, h2⟩
      rw [fill_uncovered] at h2
      rw [h2] at hgc
      cases hgc
    rw [hmain, build_deferred_tool_results.eq_def]
    dsimp only
    rw [if_neg hmd_ne, if_neg hcond]
    dsimp only [Option.bind]
    exact hgc

/-- Witness for the amended C2 at a concrete input: feedback approving only
the unrelated t9 leaves t1 auto-denied and t2 auto-failed. -/
theorem claim_C2_witness :
    (wC2ParentState.deferred_tool_metadata.map Prod.fst).Nodup
    ∧ ("t1", [("type", "approval")]) ∈ wC2ParentState.deferred_tool_metadata
    ∧ ("t2", [("type", "call")]) ∈ wC2ParentState.deferred_tool_metadata
    ∧ (pySeqTruthy (some wC2Interactions) || pySeqTruthy (none : Option (List ToolResult)))
        = true
    ∧ ((execute_session_deferred_results (some wC2ParentState) (some wC2Interactions) none).bind
          fun d => dictGet d.approvals "t1")
        = some (ApprovalValue.toolDenied (some "Auto-denied: no response provided"))
    ∧ ((execute_session_deferred_results (some wC2ParentState) (some wC2Interactions) none).bind
          fun d => dictGet d.calls "t2")
        = some { return_value := "Auto-failed: no result provided" } := by
  refine ⟨by decide, by decide, by decide, by decide, ?_, ?_⟩
  · exact (claim_C2_deferred_autoresolve wC2ParentState (some wC2Interactions) none
      "t1" [("type", "approval")] (by decide) (by decide) (by decide)).1 rfl rfl
  · exact (claim_C2_deferred_autoresolve wC2ParentState (some wC2Interactions) none
      "t2" [("type", "call")] (by decide) (by decide) (by decide)).2 rfl rfl

-- Claim C5: interrupted finalize path -----------------------------------------

/-- Claim C5 evaluation at the failing input: the coordinator commit call
passes the keyword argument final_message, which
SessionManager.commit_session does not accept, so the commit attempt inside
_handle_interrupt raises TypeError before commit_session runs; consequently
every interrupted session with an exported state degrades to fail_session
and is reported FAILED (never committed with its partial export), even when
commit_session itself would have succeeded; a session with no export is
failed directly, as the claim states. -/
theorem claim_C5_interrupt_commit_always_fails :
    coordinator_commit_unexpected = ["final_message"]
    ∧ (∀ (sid : String) (st : SessionState) (fin : Option String) (sm : RunSummary)
        (commit_raises : Bool),
      (handle_interrupt sid (some st) fin sm commit_raises).result.status
          = SessionStatus.failed
      ∧ (handle_interrupt sid (some st) fin sm commit_raises).commit_succeeded = false
      ∧ (handle_interrupt sid (some st) fin sm commit_raises).fail_session_called = true)
    ∧ (∀ (sid : String) (fin : Option String) (sm : RunSummary) (commit_raises : Bool),
      (handle_interrupt sid none fin sm commit_raises).result.status = SessionStatus.failed
      ∧ (handle_interrupt sid none fin sm commit_raises).fail_session_called = true) := by
  have hc : coordinator_commit_call_raises = true := rfl
  refine ⟨rfl, ?_, ?_⟩
  · intro sid st fin sm commit_raises
    simp [handle_interrupt, hc]
  · intro sid fin sm commit_raises
    simp [handle_interrupt]
